import Mathlib

/-!
Shallow embedding of the Focus/Break session timer of `src/components/Timer.tsx`
(the `Timer` React component of the ambient-assist repository).

The component's state hooks become the fields of `TimerState`; the handlers
`startTimer`, `pauseTimer`, `resetTimer` and `switchSession` become pure
functions on that state.  The one-second interval callback installed by the
`useEffect` becomes `tick`: the effect installs the interval only while
`isRunning && timeLeft > 0`, so that conjunction is the guard of `tick`, and
the body of the `setTimeLeft` functional update is translated branch by
branch.  Calls to `onSessionComplete` are collected as a list of emitted
`Session` events; the `toast` call is display-only and dropped.  Wall-clock
instants (`new Date()`) are opaque `Nat` timestamps supplied to `startTimer`.

JS numbers holding these small integer counters behave as exact integers, so
`timeLeft` and `sessionCount` are `Int`; the JS `%` on the positive operands
reached under the `sessionCount > 0` guard agrees with `Int.tmod`.
-/

namespace AmbientAssist

/-- The `'focus' | 'break'` union type of the source; `brk` stands for the
string literal `'break'` (a Lean keyword). -/
inductive SessionType where
  | focus
  | brk
deriving DecidableEq, Repr

/-- The session record passed to `onSessionComplete`:
`{ type: 'focus' | 'break'; duration: number; timestamp: Date }`. -/
structure Session where
  type : SessionType
  duration : Int
  timestamp : Nat
deriving DecidableEq, Repr

/-- The five `useState` hooks of the `Timer` component. -/
structure TimerState where
  timeLeft : Int
  isRunning : Bool
  sessionType : SessionType
  sessionCount : Int
  startTime : Option Nat
deriving DecidableEq, Repr

/-- `const focusDuration = 25 * 60`. -/
def focusDuration : Int := 25 * 60

/-- `const breakDuration = 5 * 60`. -/
def breakDuration : Int := 5 * 60

/-- `const longBreakDuration = 15 * 60`. -/
def longBreakDuration : Int := 15 * 60

/-- The initial hook values: `useState(25 * 60)`, `useState(false)`,
`useState('focus')`, `useState(0)`, `useState(null)`. -/
def initialState : TimerState :=
  { timeLeft := focusDuration
    isRunning := false
    sessionType := .focus
    sessionCount := 0
    startTime := none }

/-- `startTimer`: `setIsRunning(true); if (!startTime) setStartTime(new Date())`.
The current wall-clock instant is the argument `now`. -/
def startTimer (now : Nat) (s : TimerState) : TimerState :=
  { s with
    isRunning := true
    startTime := match s.startTime with
      | none => some now
      | some t => some t }

/-- `pauseTimer`: `setIsRunning(false)`. -/
def pauseTimer (s : TimerState) : TimerState :=
  { s with isRunning := false }

/-- `resetTimer`: `setIsRunning(false);
setTimeLeft(sessionType === 'focus' ? focusDuration : breakDuration);
setStartTime(null)`. -/
def resetTimer (s : TimerState) : TimerState :=
  { s with
    isRunning := false
    timeLeft := if s.sessionType = .focus then focusDuration else breakDuration
    startTime := none }

/-- `switchSession`: on `'focus'`,
`isLongBreak = sessionCount > 0 && (sessionCount + 1) % 4 === 0`,
set type `'break'`, `timeLeft` to the long or short break duration and
increment `sessionCount`; on `'break'`, set type `'focus'` and
`timeLeft = focusDuration`.  Both branches then run
`setIsRunning(false); setStartTime(null)`. -/
def switchSession (s : TimerState) : TimerState :=
  if s.sessionType = .focus then
    { s with
      sessionType := .brk
      timeLeft :=
        if 0 < s.sessionCount ∧ Int.tmod (s.sessionCount + 1) 4 = 0 then
          longBreakDuration
        else breakDuration
      sessionCount := s.sessionCount + 1
      isRunning := false
      startTime := none }
  else
    { s with
      sessionType := .focus
      timeLeft := focusDuration
      isRunning := false
      startTime := none }

/-- Result of one firing of the interval callback: the updated state, the
`onSessionComplete` events emitted (zero or one), and whether a deferred
`switchSession` was scheduled via `setTimeout(..., 1000)`. -/
structure TickResult where
  state : TimerState
  events : List Session
  scheduledSwitch : Bool
deriving DecidableEq, Repr

/-- One firing of the one-second interval.  The `useEffect` installs the
interval only when `isRunning && timeLeft > 0`, so outside that guard nothing
happens.  Inside, the `setTimeLeft(prev => ...)` updater runs with
`prev = timeLeft`: when `prev <= 1` it stops the timer, emits
`{ type: sessionType, duration: duration - prev, timestamp: startTime }`
provided `startTime` is non-null (with `duration` resolved from the current
type and the `sessionCount > 0 && sessionCount % 4 === 0` cadence), schedules
`switchSession` after one second and returns `0`; otherwise it returns
`prev - 1`. -/
def tick (s : TimerState) : TickResult :=
  if s.isRunning = true ∧ 0 < s.timeLeft then
    if s.timeLeft ≤ 1 then
      let duration : Int :=
        if s.sessionType = .focus then focusDuration
        else if 0 < s.sessionCount ∧ Int.tmod s.sessionCount 4 = 0 then
          longBreakDuration
        else breakDuration
      { state := { s with isRunning := false, timeLeft := 0 }
        events :=
          match s.startTime with
          | some t => [{ type := s.sessionType, duration := duration - s.timeLeft, timestamp := t }]
          | none => []
        scheduledSwitch := true }
    else
      { state := { s with timeLeft := s.timeLeft - 1 }, events := [], scheduledSwitch := false }
  else
    { state := s, events := [], scheduledSwitch := false }

/-- A user command or interval firing addressed to the timer state alone. -/
inductive TCmd where
  | start (now : Nat)
  | pause
  | reset
  | switch
  | tick
deriving DecidableEq, Repr

/-- Apply one command; the second component is the list of
`onSessionComplete` events the command emitted. -/
def applyTCmd (c : TCmd) (s : TimerState) : TimerState × List Session :=
  match c with
  | .start now => (startTimer now s, [])
  | .pause => (pauseTimer s, [])
  | .reset => (resetTimer s, [])
  | .switch => (switchSession s, [])
  | .tick => ((tick s).state, (tick s).events)

/-- Run a command sequence from a given state, concatenating the emitted
events in order. -/
def runTimerFrom (s : TimerState) : List TCmd → TimerState × List Session
  | [] => (s, [])
  | c :: cs =>
    let r := applyTCmd c s
    let rest := runTimerFrom r.1 cs
    (rest.1, r.2 ++ rest.2)

/-- Run a command sequence from the initial mount state. -/
def runTimer (cs : List TCmd) : TimerState × List Session :=
  runTimerFrom initialState cs

/-!
System layer: the component together with the browser's scheduler.
`pendingInterval` records whether the `useEffect`'s `setInterval` is currently
installed; `pendingSwitch` records whether a `setTimeout(() => switchSession(),
1000)` scheduled by a natural completion has not yet fired.  The effect has
`isRunning` and `timeLeft` among its dependencies, so after every state change
while mounted it tears its interval down and reinstalls it exactly when
`isRunning && timeLeft > 0`; `syncInterval` performs that resynchronisation.
On unmount the effect cleanup runs `clearInterval(interval)`, but the
`setTimeout` handle of the deferred switch is never stored or cleared, so
unmounting leaves `pendingSwitch` as it was.  A deferred switch that fires
after unmount only calls state setters of an unmounted component, which the
framework ignores, so it no longer changes the timer state.
-/

/-- The component plus the scheduler's pending callbacks. -/
structure SystemState where
  timer : TimerState
  mounted : Bool
  pendingInterval : Bool
  pendingSwitch : Bool
deriving DecidableEq, Repr

/-- Re-run of the tick `useEffect` after a state change while mounted: the
previous interval is cleared and a new one installed iff
`isRunning && timeLeft > 0`. -/
def syncInterval (sys : SystemState) : SystemState :=
  { sys with
    pendingInterval :=
      sys.mounted && sys.timer.isRunning && decide (0 < sys.timer.timeLeft) }

/-- A user command, a scheduler firing, or disposal of the component. -/
inductive SCmd where
  | start (now : Nat)
  | pause
  | reset
  | switch
  | intervalFire
  | deferredFire
  | unmount
deriving DecidableEq, Repr

/-- One step of the system.  User commands reach the handlers only while the
component is mounted.  `intervalFire` is the interval callback: it requires an
installed interval, applies `tick`, and records a scheduled deferred switch.
`deferredFire` is the `setTimeout` callback: while mounted it applies
`switchSession`; after unmount its state updates are ignored.  `unmount` runs
the effect cleanup, which clears the interval but not the deferred switch. -/
def applySCmd (c : SCmd) (sys : SystemState) : SystemState × List Session :=
  match c with
  | .start now =>
    if sys.mounted then
      (syncInterval { sys with timer := startTimer now sys.timer }, [])
    else (sys, [])
  | .pause =>
    if sys.mounted then
      (syncInterval { sys with timer := pauseTimer sys.timer }, [])
    else (sys, [])
  | .reset =>
    if sys.mounted then
      (syncInterval { sys with timer := resetTimer sys.timer }, [])
    else (sys, [])
  | .switch =>
    if sys.mounted then
      (syncInterval { sys with timer := switchSession sys.timer }, [])
    else (sys, [])
  | .intervalFire =>
    if sys.pendingInterval then
      let r := tick sys.timer
      (syncInterval
        { sys with
          timer := r.state
          pendingSwitch := sys.pendingSwitch || r.scheduledSwitch }, r.events)
    else (sys, [])
  | .deferredFire =>
    if sys.pendingSwitch then
      if sys.mounted then
        (syncInterval { sys with timer := switchSession sys.timer, pendingSwitch := false }, [])
      else
        ({ sys with pendingSwitch := false }, [])
    else (sys, [])
  | .unmount =>
    if sys.mounted then
      ({ sys with mounted := false, pendingInterval := false }, [])
    else (sys, [])

/-- The freshly mounted component: initial hook values, no callbacks pending. -/
def initialSystem : SystemState :=
  { timer := initialState, mounted := true, pendingInterval := false, pendingSwitch := false }

/-- Run a sequence of system steps from a given system state. -/
def runSysFrom (sys : SystemState) : List SCmd → SystemState × List Session
  | [] => (sys, [])
  | c :: cs =>
    let r := applySCmd c sys
    let rest := runSysFrom r.1 cs
    (rest.1, r.2 ++ rest.2)

/-- Run a sequence of system steps from the freshly mounted component. -/
def runSys (cs : List SCmd) : SystemState × List Session :=
  runSysFrom initialSystem cs

/-- A running focus state with `n` seconds left, no completed sessions yet and
start instant `t0`: the state reached by pressing start on a fresh mount and
letting some ticks elapse. -/
def runningFocus (n : Int) (t0 : Nat) : TimerState :=
  { timeLeft := n
    isRunning := true
    sessionType := .focus
    sessionCount := 0
    startTime := some t0 }

/-- The state right after a run of `runningFocus` ticks down to zero: stopped,
`timeLeft = 0`, everything else as during the run. -/
def completedFocus (t0 : Nat) : TimerState :=
  { timeLeft := 0
    isRunning := false
    sessionType := .focus
    sessionCount := 0
    startTime := some t0 }

lemma startTimer_initialState (t0 : Nat) :
    startTimer t0 initialState = runningFocus 1500 t0 := rfl

lemma tick_runningFocus_decrement (n : Int) (t0 : Nat) (h : 1 < n) :
    tick (runningFocus n t0) =
      { state := runningFocus (n - 1) t0, events := [], scheduledSwitch := false } := by
  have h1 : (0 : Int) < n := by omega
  have h2 : ¬ n ≤ 1 := by omega
  simp [tick, runningFocus, h1, h2]

lemma tick_runningFocus_one (t0 : Nat) :
    tick (runningFocus 1 t0) =
      { state := completedFocus t0
        events := [{ type := .focus, duration := 1499, timestamp := t0 }]
        scheduledSwitch := true } := by
  norm_num [tick, runningFocus, completedFocus, focusDuration]

lemma runTimerFrom_cons (s : TimerState) (c : TCmd) (cs : List TCmd) :
    runTimerFrom s (c :: cs) =
      ((runTimerFrom (applyTCmd c s).1 cs).1,
       (applyTCmd c s).2 ++ (runTimerFrom (applyTCmd c s).1 cs).2) := rfl

lemma runTicks_lt (k : Nat) : ∀ (n : Int) (t0 : Nat), (k : Int) < n →
    runTimerFrom (runningFocus n t0) (List.replicate k TCmd.tick) =
      (runningFocus (n - k) t0, []) := by
  induction k with
  | zero =>
    intro n t0 _
    simp [runTimerFrom]
  | succ k ih =>
    intro n t0 h
    have hk : ((k : Int) + 1) < n := by push_cast at h; omega
    rw [List.replicate_succ, runTimerFrom_cons]
    simp only [applyTCmd]
    have hdec := tick_runningFocus_decrement n t0 (by omega)
    rw [hdec]
    simp only [ih (n - 1) t0 (by omega)]
    have harith : n - 1 - (k : Int) = n - ((k + 1 : Nat) : Int) := by push_cast; ring
    simp only [harith]
    simp

lemma runTicks_complete (m : Nat) : ∀ (t0 : Nat),
    runTimerFrom (runningFocus ((m : Int) + 1) t0) (List.replicate (m + 1) TCmd.tick) =
      (completedFocus t0,
       [{ type := .focus, duration := 1499, timestamp := t0 }]) := by
  induction m with
  | zero =>
    intro t0
    simp only [List.replicate_succ, List.replicate_zero, Nat.cast_zero, zero_add,
      runTimerFrom_cons, applyTCmd]
    rw [tick_runningFocus_one t0]
    simp [runTimerFrom]
  | succ m ih =>
    intro t0
    rw [List.replicate_succ, runTimerFrom_cons]
    simp only [applyTCmd]
    have hdec := tick_runningFocus_decrement (((m + 1 : Nat) : Int) + 1) t0 (by push_cast; omega)
    rw [hdec]
    have harith : ((m + 1 : Nat) : Int) + 1 - 1 = ((m : Int) + 1) := by push_cast; ring
    simp only [harith]
    simp only [ih t0]
    simp

/-- C1.  Starting from the initial state with `isRunning = true` and
`startTime` set (the state produced by `startTimer` on a fresh mount), the
first 1499 ticks each decrement `timeLeft` by one and emit nothing, and the
1500th tick drives `timeLeft` to 0 and emits exactly one `onSessionComplete`
event with `type = focus` — whose `duration` is `1499`, the code's
`duration - prev` with `prev = 1` at the completing tick, not the nominal
`1500` the claim states. -/
theorem C1_focus_completion (t0 : Nat) :
    (∀ k : Nat, k < 1500 →
      runTimerFrom (startTimer t0 initialState) (List.replicate k TCmd.tick) =
        (runningFocus (1500 - (k : Int)) t0, [])) ∧
    runTimerFrom (startTimer t0 initialState) (List.replicate 1500 TCmd.tick) =
      (completedFocus t0,
       [{ type := .focus, duration := 1499, timestamp := t0 }]) := by
  constructor
  · intro k hk
    rw [startTimer_initialState]
    exact runTicks_lt k 1500 t0 (by exact_mod_cast hk)
  · rw [startTimer_initialState]
    have h := runTicks_complete 1499 t0
    norm_num at h
    exact h

/-- Witness for C1 at `t0 = 0`: ten ticks reach `timeLeft = 1490` with no
event, and the full 1500-tick run emits the single event with duration 1499. -/
theorem C1_focus_completion_witness :
    runTimerFrom (startTimer 0 initialState) (List.replicate 10 TCmd.tick) =
      (runningFocus 1490 0, []) ∧
    runTimerFrom (startTimer 0 initialState) (List.replicate 1500 TCmd.tick) =
      (completedFocus 0,
       [{ type := .focus, duration := 1499, timestamp := 0 }]) := by
  constructor
  · have h := (C1_focus_completion 0).1 10 (by norm_num)
    norm_num at h
    exact h
  · exact (C1_focus_completion 0).2

/-- C1 counterexample: on the literal 1500-tick run from the started initial
state, the emitted event list is `[⟨focus, 1499, 0⟩]`, and is *not* the list
`[⟨focus, 1500, 0⟩]` the claim's `duration = 1500` would require. -/
theorem C1_duration_counterexample :
    (runTimer (TCmd.start 0 :: List.replicate 1500 TCmd.tick)).2 =
      [{ type := .focus, duration := 1499, timestamp := 0 }] ∧
    (runTimer (TCmd.start 0 :: List.replicate 1500 TCmd.tick)).2 ≠
      [{ type := .focus, duration := 1500, timestamp := 0 }] := by
  have h := runTicks_complete 1499 0
  norm_num at h
  have hrun : runTimer (TCmd.start 0 :: List.replicate 1500 TCmd.tick) =
      ((runTimerFrom (runningFocus 1500 0) (List.replicate 1500 TCmd.tick)).1,
       [] ++ (runTimerFrom (runningFocus 1500 0) (List.replicate 1500 TCmd.tick)).2) := by
    rw [← startTimer_initialState]
    rfl
  rw [hrun, h]
  refine ⟨by simp, by simp⟩

/-- C2.  A Focus → Break transition (manual `switchSession`, and the deferred
automatic switch, which applies the same function) sets the type to break,
sets `timeLeft = longBreakDuration` iff the pre-transition count satisfies
`sessionCount > 0 ∧ (sessionCount + 1) % 4 = 0` and `breakDuration`
otherwise, and increments `sessionCount`; a Break → Focus transition sets the
type to focus and `timeLeft = focusDuration`; every transition stops the
timer and clears `startTime`. -/
theorem C2_transition :
    (∀ s : TimerState, s.sessionType = .focus →
      (switchSession s).sessionType = .brk ∧
      ((switchSession s).timeLeft = longBreakDuration ↔
        (0 < s.sessionCount ∧ Int.tmod (s.sessionCount + 1) 4 = 0)) ∧
      (¬ (0 < s.sessionCount ∧ Int.tmod (s.sessionCount + 1) 4 = 0) →
        (switchSession s).timeLeft = breakDuration) ∧
      (switchSession s).sessionCount = s.sessionCount + 1) ∧
    (∀ s : TimerState, s.sessionType = .brk →
      (switchSession s).sessionType = .focus ∧
      (switchSession s).timeLeft = focusDuration ∧
      (switchSession s).sessionCount = s.sessionCount) ∧
    (∀ s : TimerState,
      (switchSession s).isRunning = false ∧ (switchSession s).startTime = none) ∧
    (∀ sys : SystemState, sys.mounted = true → sys.pendingSwitch = true →
      (applySCmd SCmd.deferredFire sys).1.timer = switchSession sys.timer) := by
  refine ⟨?_, ?_, ?_, ?_⟩
  · intro s hs
    refine ⟨by simp [switchSession, hs], ?_, ?_, by simp [switchSession, hs]⟩
    · by_cases hl : 0 < s.sessionCount ∧ Int.tmod (s.sessionCount + 1) 4 = 0
      · simp [switchSession, hs, hl]
      · simp only [switchSession, hs, if_true, if_pos rfl, if_neg hl]
        norm_num [longBreakDuration, breakDuration]
        exact fun h1 h2 => hl ⟨h1, h2⟩
    · intro hl
      simp [switchSession, hs, hl]
  · intro s hs
    have hne : ¬ s.sessionType = .focus := by rw [hs]; decide
    exact ⟨by simp [switchSession, hne], by simp [switchSession, hne],
           by simp [switchSession, hne]⟩
  · intro s
    by_cases hs : s.sessionType = .focus
    · exact ⟨by simp [switchSession, hs], by simp [switchSession, hs]⟩
    · exact ⟨by simp [switchSession, hs], by simp [switchSession, hs]⟩
  · intro sys hm hp
    simp [applySCmd, hm, hp, syncInterval]

/-- Witness for C2: from a focus state with three completed focus sessions,
switching yields the long break of 900 seconds, count 4, stopped, cleared
start time; from a break state, switching restores the 1500-second focus. -/
theorem C2_transition_witness :
    (switchSession ⟨7, true, .focus, 3, some 2⟩).timeLeft = longBreakDuration ∧
    (switchSession ⟨7, true, .focus, 3, some 2⟩).sessionCount = 3 + 1 ∧
    (switchSession ⟨11, true, .brk, 1, some 2⟩).timeLeft = focusDuration ∧
    (applySCmd SCmd.deferredFire ⟨initialState, true, false, true⟩).1.timer =
      switchSession initialState := by
  have h1 := C2_transition.1 ⟨7, true, .focus, 3, some 2⟩ rfl
  have h2 := C2_transition.2.1 ⟨11, true, .brk, 1, some 2⟩ rfl
  have h4 := C2_transition.2.2.2 ⟨initialState, true, false, true⟩ rfl rfl
  exact ⟨h1.2.1.2 (by decide), h1.2.2.2, h2.2.1, h4⟩

/-- C4.  `switchSession` (and every other user command) emits no
`onSessionComplete` event; an event can only come out of a tick, and only a
tick whose pre-state is running with `0 < timeLeft ≤ 1`, which drives
`timeLeft` to 0.  At the system level only an interval firing can emit. -/
theorem C4_no_event_on_manual_switch :
    (∀ s : TimerState, (applyTCmd TCmd.switch s).2 = []) ∧
    (∀ (now : Nat) (s : TimerState), (applyTCmd (TCmd.start now) s).2 = []) ∧
    (∀ s : TimerState, (applyTCmd TCmd.pause s).2 = []) ∧
    (∀ s : TimerState, (applyTCmd TCmd.reset s).2 = []) ∧
    (∀ s : TimerState, (applyTCmd TCmd.tick s).2 ≠ [] →
      s.isRunning = true ∧ 0 < s.timeLeft ∧ s.timeLeft ≤ 1 ∧
        (applyTCmd TCmd.tick s).1.timeLeft = 0) ∧
    (∀ (c : SCmd) (sys : SystemState), c ≠ SCmd.intervalFire →
      (applySCmd c sys).2 = []) := by
  refine ⟨fun s => rfl, fun now s => rfl, fun s => rfl, fun s => rfl, ?_, ?_⟩
  · intro s h
    by_cases hg : s.isRunning = true ∧ 0 < s.timeLeft
    · by_cases h1 : s.timeLeft ≤ 1
      · refine ⟨hg.1, hg.2, h1, ?_⟩
        simp only [applyTCmd, tick, if_pos hg, if_pos h1]
      · exfalso
        apply h
        simp only [applyTCmd, tick, if_pos hg, if_neg h1]
    · exfalso
      apply h
      simp only [applyTCmd, tick, if_neg hg]
  · intro c sys hc
    cases c with
    | intervalFire => exact absurd rfl hc
    | start now => simp only [applySCmd]; split <;> rfl
    | pause => simp only [applySCmd]; split <;> rfl
    | reset => simp only [applySCmd]; split <;> rfl
    | switch => simp only [applySCmd]; split <;> rfl
    | deferredFire =>
      simp only [applySCmd]
      split
      · split <;> rfl
      · rfl
    | unmount => simp only [applySCmd]; split <;> rfl

/-- Witness for C4: a running state one second from completion does emit on
tick (so the tick conjunct's hypothesis is satisfiable) and ends at 0, while
the system-level `unmount` emits nothing. -/
theorem C4_no_event_on_manual_switch_witness :
    ((applyTCmd TCmd.tick ⟨1, true, .focus, 0, some 0⟩).1.timeLeft = 0) ∧
    (applySCmd SCmd.unmount ⟨initialState, true, false, false⟩).2 = [] := by
  have h := C4_no_event_on_manual_switch.2.2.2.2.1
    ⟨1, true, .focus, 0, some 0⟩ (by decide)
  have h2 := C4_no_event_on_manual_switch.2.2.2.2.2 SCmd.unmount
    ⟨initialState, true, false, false⟩ (by decide)
  exact ⟨h.2.2.2, h2⟩

/-- C5.  `resetTimer` stops the timer, restores `timeLeft` to `focusDuration`
during focus and to the short `breakDuration` during any break (including a
long one), and clears `startTime`. -/
theorem C5_reset :
    ∀ s : TimerState,
      (resetTimer s).isRunning = false ∧
      (s.sessionType = .focus → (resetTimer s).timeLeft = focusDuration) ∧
      (s.sessionType = .brk → (resetTimer s).timeLeft = breakDuration) ∧
      (resetTimer s).startTime = none := by
  intro s
  refine ⟨rfl, ?_, ?_, rfl⟩
  · intro h
    simp [resetTimer, h]
  · intro h
    have hne : ¬ s.sessionType = .focus := by rw [h]; decide
    simp [resetTimer, hne]

/-- Witness for C5: resetting in the middle of a long break (900 seconds,
session count 4) yields 300 seconds, not 900. -/
theorem C5_reset_witness :
    (resetTimer ⟨900, true, .brk, 4, some 5⟩).timeLeft = breakDuration ∧
    breakDuration = 300 ∧ longBreakDuration = 900 := by
  refine ⟨(C5_reset ⟨900, true, .brk, 4, some 5⟩).2.2.1 rfl, by decide, by decide⟩

/-- C6.  `pauseTimer` only clears `isRunning`: `timeLeft`, `startTime`,
`sessionType` and `sessionCount` are untouched, so start-then-pause keeps
`timeLeft`, and a later start resumes with the same `timeLeft` and
`startTime`. -/
theorem C6_pause_frame :
    ∀ (s : TimerState) (now now2 : Nat),
      (pauseTimer s).isRunning = false ∧
      (pauseTimer s).timeLeft = s.timeLeft ∧
      (pauseTimer s).startTime = s.startTime ∧
      (pauseTimer s).sessionType = s.sessionType ∧
      (pauseTimer s).sessionCount = s.sessionCount ∧
      (pauseTimer (startTimer now s)).timeLeft = s.timeLeft ∧
      (startTimer now2 (pauseTimer (startTimer now s))).timeLeft =
        (startTimer now s).timeLeft ∧
      (startTimer now2 (pauseTimer (startTimer now s))).startTime =
        (startTimer now s).startTime := by
  intro s now now2
  refine ⟨rfl, rfl, rfl, rfl, rfl, rfl, rfl, ?_⟩
  cases h : s.startTime <;> simp [startTimer, pauseTimer, h]

/-- C7.  `startTimer` is a no-op on a running state whose `startTime` is set,
and `pauseTimer` is a no-op on a stopped state; both are total, so the no-op
calls are accepted silently. -/
theorem C7_noop_idempotence :
    (∀ (now t : Nat) (s : TimerState),
      s.isRunning = true → s.startTime = some t → startTimer now s = s) ∧
    (∀ s : TimerState, s.isRunning = false → pauseTimer s = s) := by
  constructor
  · intro now t s hrun hst
    cases s
    simp_all [startTimer]
  · intro s hp
    cases s
    simp_all [pauseTimer]

/-- Witness for C7: starting an already-running state and pausing the
initial (stopped) state both leave the state unchanged. -/
theorem C7_noop_idempotence_witness :
    startTimer 9 ⟨100, true, .focus, 0, some 3⟩ = ⟨100, true, .focus, 0, some 3⟩ ∧
    pauseTimer initialState = initialState := by
  exact ⟨C7_noop_idempotence.1 9 3 _ rfl rfl, C7_noop_idempotence.2 initialState rfl⟩

/-- C10.  `resetTimer` never changes the session type or the session count. -/
theorem C10_reset_frame :
    ∀ s : TimerState,
      (resetTimer s).sessionType = s.sessionType ∧
      (resetTimer s).sessionCount = s.sessionCount := by
  intro s
  exact ⟨rfl, rfl⟩

/-- The `timeLeft` range invariant of the spec. -/
def timeLeftInRange (s : TimerState) : Prop :=
  0 ≤ s.timeLeft ∧ s.timeLeft ≤ 1500

lemma applyTCmd_timeLeftInRange (c : TCmd) (s : TimerState) (h : timeLeftInRange s) :
    timeLeftInRange (applyTCmd c s).1 := by
  obtain ⟨h0, h1⟩ := h
  cases c with
  | start now => exact ⟨h0, h1⟩
  | pause => exact ⟨h0, h1⟩
  | reset =>
    simp only [applyTCmd, resetTimer, timeLeftInRange]
    split <;> norm_num [focusDuration, breakDuration]
  | switch =>
    simp only [applyTCmd, switchSession, timeLeftInRange]
    split
    · split <;> norm_num [longBreakDuration, breakDuration]
    · norm_num [focusDuration]
  | tick =>
    simp only [applyTCmd, tick, timeLeftInRange]
    split
    · split
      · norm_num
      · constructor
        · show (0 : Int) ≤ s.timeLeft - 1
          omega
        · show s.timeLeft - 1 ≤ 1500
          omega
    · exact ⟨h0, h1⟩

lemma runTimerFrom_timeLeftInRange : ∀ (cs : List TCmd) (s : TimerState),
    timeLeftInRange s → timeLeftInRange (runTimerFrom s cs).1 := by
  intro cs
  induction cs with
  | nil => intro s h; exact h
  | cons c cs ih =>
    intro s h
    rw [runTimerFrom_cons]
    exact ih _ (applyTCmd_timeLeftInRange c s h)

/-- C3.  Along every command sequence from the initial state, `timeLeft`
stays within `[0, max focusDuration longBreakDuration]`, and that bound is
1500. -/
theorem C3_timeLeft_range :
    ∀ cs : List TCmd,
      0 ≤ (runTimer cs).1.timeLeft ∧
      (runTimer cs).1.timeLeft ≤ max focusDuration longBreakDuration ∧
      max focusDuration longBreakDuration = 1500 := by
  intro cs
  have hmax : max focusDuration longBreakDuration = 1500 := by decide
  have hinit : timeLeftInRange initialState := by
    constructor <;> norm_num [initialState, focusDuration]
  have h := runTimerFrom_timeLeftInRange cs initialState hinit
  exact ⟨h.1, by rw [hmax]; exact h.2, hmax⟩

lemma applyTCmd_sessionCount_mono (c : TCmd) (s : TimerState) :
    s.sessionCount ≤ (applyTCmd c s).1.sessionCount := by
  cases c with
  | start now => exact le_refl _
  | pause => exact le_refl _
  | reset => exact le_refl _
  | switch =>
    simp only [applyTCmd, switchSession]
    split
    · simp
    · exact le_refl _
  | tick =>
    simp only [applyTCmd, tick]
    split
    · split <;> simp
    · exact le_refl _

lemma runTimerFrom_sessionCount_nonneg : ∀ (cs : List TCmd) (s : TimerState),
    0 ≤ s.sessionCount → 0 ≤ (runTimerFrom s cs).1.sessionCount := by
  intro cs
  induction cs with
  | nil => intro s h; exact h
  | cons c cs ih =>
    intro s h
    rw [runTimerFrom_cons]
    exact ih _ (le_trans h (applyTCmd_sessionCount_mono c s))

/-- C8.  `sessionCount` stays nonnegative along every run; `startTimer`,
`pauseTimer`, `resetTimer` and `tick` never change it; `switchSession` from
focus — the Focus → Break transition, manual or automatic — increments it by
exactly one; `switchSession` from break leaves it alone; and no command ever
decreases it. -/
theorem C8_sessionCount :
    (∀ cs : List TCmd, 0 ≤ (runTimer cs).1.sessionCount) ∧
    (∀ (now : Nat) (s : TimerState), (startTimer now s).sessionCount = s.sessionCount) ∧
    (∀ s : TimerState, (pauseTimer s).sessionCount = s.sessionCount) ∧
    (∀ s : TimerState, (resetTimer s).sessionCount = s.sessionCount) ∧
    (∀ s : TimerState, (tick s).state.sessionCount = s.sessionCount) ∧
    (∀ s : TimerState, s.sessionType = .focus →
      (switchSession s).sessionCount = s.sessionCount + 1) ∧
    (∀ s : TimerState, s.sessionType = .brk →
      (switchSession s).sessionCount = s.sessionCount) ∧
    (∀ (c : TCmd) (s : TimerState), s.sessionCount ≤ (applyTCmd c s).1.sessionCount) := by
  refine ⟨?_, fun now s => rfl, fun s => rfl, fun s => rfl, ?_, ?_, ?_, ?_⟩
  · intro cs
    exact runTimerFrom_sessionCount_nonneg cs initialState (by norm_num [initialState])
  · intro s
    simp only [tick]
    split
    · split <;> rfl
    · rfl
  · intro s hs
    simp [switchSession, hs]
  · intro s hs
    have hne : ¬ s.sessionType = .focus := by rw [hs]; decide
    simp [switchSession, hne]
  · exact applyTCmd_sessionCount_mono

/-- Witness for C8: a manual switch from the initial focus state raises the
count from 0 to 1, and a switch back from break keeps it at 1. -/
theorem C8_sessionCount_witness :
    (switchSession initialState).sessionCount = 0 + 1 ∧
    (switchSession ⟨300, false, .brk, 1, none⟩).sessionCount = 1 := by
  have h1 := C8_sessionCount.2.2.2.2.2.1 initialState rfl
  have h2 := C8_sessionCount.2.2.2.2.2.2.1 ⟨300, false, .brk, 1, none⟩ rfl
  constructor
  · rw [h1]
    rfl
  · rw [h2]

/-- The system state right after pressing start on a fresh mount at instant
`t0 = 0` and `n` seconds left: mounted, interval installed, no deferred
switch pending. -/
def sysRunning (n : Int) (t0 : Nat) : SystemState :=
  { timer := runningFocus n t0, mounted := true, pendingInterval := true, pendingSwitch := false }

/-- The system state right after a natural focus completion: mounted, timer
stopped at 0, interval gone, deferred switch pending. -/
def sysCompleted (t0 : Nat) : SystemState :=
  { timer := completedFocus t0, mounted := true, pendingInterval := false, pendingSwitch := true }

/-- The system state after pressing start again inside the deferral window:
mounted and running (with `timeLeft = 0`, so no interval), deferred switch
still pending. -/
def sysRestarted : SystemState :=
  { timer := { timeLeft := 0, isRunning := true, sessionType := .focus, sessionCount := 0,
               startTime := some 0 }
    mounted := true, pendingInterval := false, pendingSwitch := true }

lemma runSysFrom_cons (sys : SystemState) (c : SCmd) (cs : List SCmd) :
    runSysFrom sys (c :: cs) =
      ((runSysFrom (applySCmd c sys).1 cs).1,
       (applySCmd c sys).2 ++ (runSysFrom (applySCmd c sys).1 cs).2) := rfl

lemma runSysFrom_cons_fst (sys : SystemState) (c : SCmd) (cs : List SCmd) :
    (runSysFrom sys (c :: cs)).1 = (runSysFrom (applySCmd c sys).1 cs).1 := rfl

lemma runSysFrom_append (l1 l2 : List SCmd) : ∀ sys : SystemState,
    (runSysFrom sys (l1 ++ l2)).1 = (runSysFrom (runSysFrom sys l1).1 l2).1 := by
  induction l1 with
  | nil => intro sys; rfl
  | cons c l1 ih =>
    intro sys
    rw [List.cons_append, runSysFrom_cons, runSysFrom_cons]
    exact ih (applySCmd c sys).1

lemma sysFire_decrement (n : Int) (t0 : Nat) (h : 1 < n) :
    applySCmd SCmd.intervalFire (sysRunning n t0) = (sysRunning (n - 1) t0, []) := by
  have hpos : (0 : Int) < n - 1 := by omega
  have hd := tick_runningFocus_decrement n t0 h
  simp only [applySCmd, sysRunning, syncInterval]
  rw [if_pos trivial]
  simp only [hd]
  simp [hpos, runningFocus]

lemma sysFire_complete (t0 : Nat) :
    applySCmd SCmd.intervalFire (sysRunning 1 t0) =
      (sysCompleted t0, [{ type := .focus, duration := 1499, timestamp := t0 }]) := by
  simp only [applySCmd, sysRunning, syncInterval]
  rw [if_pos trivial]
  simp only [tick_runningFocus_one t0]
  simp [sysCompleted, completedFocus, runningFocus]

lemma runSysFire_lt (k : Nat) : ∀ (n : Int) (t0 : Nat), (k : Int) < n →
    runSysFrom (sysRunning n t0) (List.replicate k SCmd.intervalFire) =
      (sysRunning (n - k) t0, []) := by
  induction k with
  | zero =>
    intro n t0 _
    simp [runSysFrom]
  | succ k ih =>
    intro n t0 h
    have hk : ((k : Int) + 1) < n := by push_cast at h; omega
    rw [List.replicate_succ, runSysFrom_cons]
    have hdec := sysFire_decrement n t0 (by omega)
    rw [hdec]
    simp only [ih (n - 1) t0 (by omega)]
    have harith : n - 1 - (k : Int) = n - ((k + 1 : Nat) : Int) := by push_cast; ring
    simp only [harith]
    simp

lemma runSysFire_complete (m : Nat) : ∀ (t0 : Nat),
    runSysFrom (sysRunning ((m : Int) + 1) t0) (List.replicate (m + 1) SCmd.intervalFire) =
      (sysCompleted t0, [{ type := .focus, duration := 1499, timestamp := t0 }]) := by
  induction m with
  | zero =>
    intro t0
    simp only [List.replicate_succ, List.replicate_zero, Nat.cast_zero, zero_add,
      runSysFrom_cons]
    rw [sysFire_complete t0]
    simp [runSysFrom]
  | succ m ih =>
    intro t0
    rw [List.replicate_succ, runSysFrom_cons]
    have hdec := sysFire_decrement (((m + 1 : Nat) : Int) + 1) t0 (by push_cast; omega)
    rw [hdec]
    have harith : ((m + 1 : Nat) : Int) + 1 - 1 = ((m : Int) + 1) := by push_cast; ring
    simp only [harith]
    simp only [ih t0]
    simp

lemma runSys_deferral_window_restart :
    (runSys (SCmd.start 0 :: (List.replicate 1500 SCmd.intervalFire ++
        [SCmd.start 2000]))).1 = sysRestarted := by
  have h1 : (applySCmd (SCmd.start 0) initialSystem).1 = sysRunning 1500 0 := by rfl
  have h2 := runSysFire_complete 1499 0
  norm_num at h2
  show (runSysFrom initialSystem (SCmd.start 0 :: (List.replicate 1500 SCmd.intervalFire ++
      [SCmd.start 2000]))).1 = sysRestarted
  rw [runSysFrom_cons_fst, h1, runSysFrom_append, h2]
  rfl

/-- C9, the failing trace.  Start the fresh timer, let the 1500 ticks of a
focus session elapse (the completing tick schedules the deferred
`switchSession` via `setTimeout`), press start again inside the one-second
deferral window — the component is now mounted and `isRunning = true` with
the deferred switch still pending — and unmount.  The effect cleanup clears
the interval, but since the `setTimeout` handle is never stored or cleared,
the deferred switch is still pending after disposal, contrary to the claim
that disposal cancels it. -/
theorem C9_unmount_dangling_deferred_switch :
    ((runSys (SCmd.start 0 :: (List.replicate 1500 SCmd.intervalFire ++
        [SCmd.start 2000]))).1.mounted = true) ∧
    ((runSys (SCmd.start 0 :: (List.replicate 1500 SCmd.intervalFire ++
        [SCmd.start 2000]))).1.timer.isRunning = true) ∧
    ((runSys (SCmd.start 0 :: (List.replicate 1500 SCmd.intervalFire ++
        [SCmd.start 2000]))).1.pendingSwitch = true) ∧
    ((applySCmd SCmd.unmount (runSys (SCmd.start 0 :: (List.replicate 1500 SCmd.intervalFire ++
        [SCmd.start 2000]))).1).1.mounted = false) ∧
    ((applySCmd SCmd.unmount (runSys (SCmd.start 0 :: (List.replicate 1500 SCmd.intervalFire ++
        [SCmd.start 2000]))).1).1.pendingInterval = false) ∧
    ((applySCmd SCmd.unmount (runSys (SCmd.start 0 :: (List.replicate 1500 SCmd.intervalFire ++
        [SCmd.start 2000]))).1).1.pendingSwitch = true) := by
  rw [runSys_deferral_window_restart]
  exact ⟨rfl, rfl, rfl, rfl, rfl, rfl⟩

end AmbientAssist
